import Mathlib

/-!
Shallow embedding of `recaptcha_solver.py` (class `RecaptchaSolver`).

The Selenium WebDriver is modelled as an oracle (`Driver`): each primitive
driver operation (bounded wait for presence/clickability, immediate
`find_element`, click, frame/window/default-content switch) is answered by a
response function that may depend on the full trace of operations performed so
far.  Every operation performed by the solver is recorded in an event trace, so
that claims about "which operations occur, in which order" become statements
about the resulting trace.  Python exceptions are modelled explicitly:
`TimeoutException` and `NoSuchElementException` are dedicated oracle responses
(they are caught locally, exactly where the Python code catches them), while
any other driver-level fault is the `fault` response, which propagates as
`Except.error` until the `try/except` in `solve_recaptcha` absorbs it.
-/

/-- The CSS selectors used by the solver, as an enumerated type (their CSS
text is given by `cssOf`). -/
inductive Sel where
  | checkboxIframe
  | checkbox
  | checkboxChecked
  | challengeIframeTwoMinutes
  | challengeIframePlain
  | challengeIframeBframe
  | busterHolderDiv
  | busterHolderClass
  | busterHelpButton
  deriving DecidableEq, Repr

/-- CSS text of each selector, from the constants set in `__init__`. -/
def cssOf : Sel → String
  | Sel.checkboxIframe => "iframe[title=\x27reCAPTCHA\x27]"
  | Sel.checkbox => "#recaptcha-anchor"
  | Sel.checkboxChecked => "#recaptcha-anchor[aria-checked=\x27true\x27]"
  | Sel.challengeIframeTwoMinutes =>
      "iframe[title=\x27recaptcha challenge expires in two minutes\x27]"
  | Sel.challengeIframePlain => "iframe[title=\x27recaptcha challenge\x27]"
  | Sel.challengeIframeBframe => "iframe[src*=\x27bframe\x27]"
  | Sel.busterHolderDiv => "div.help-button-holder"
  | Sel.busterHolderClass => ".help-button-holder"
  | Sel.busterHelpButton => "[class*=\x27help-button\x27]"

/-- `self.CHALLENGE_IFRAME_SELECTORS`, in declared order. -/
def CHALLENGE_IFRAME_SELECTORS : List Sel :=
  [Sel.challengeIframeTwoMinutes, Sel.challengeIframePlain, Sel.challengeIframeBframe]

/-- `self.BUSTER_BUTTON_SELECTORS`, in declared order. -/
def BUSTER_BUTTON_SELECTORS : List Sel :=
  [Sel.busterHolderDiv, Sel.busterHolderClass, Sel.busterHelpButton]

/-- Events recorded in the driver-operation trace.  Sleeps are in
milliseconds; waits carry the timeout (seconds) they were created with. -/
inductive Event where
  | waitPresence : Sel → Nat → Event
  | waitClickable : Sel → Nat → Event
  | findElement : Sel → Event
  | click : Nat → Event
  | sleep : Nat → Event
  | switchFrame : Nat → Event
  | switchDefault : Event
  | switchWindow : Nat → Event
  deriving DecidableEq, Repr

abbrev Trace := List Event

/-- Outcome of a `WebDriverWait(...).until(...)` call: an element, a
`TimeoutException`, or some other driver fault. -/
inductive WRes where
  | found : Nat → WRes
  | timeout : WRes
  | fault : WRes
  deriving DecidableEq, Repr

/-- Outcome of an immediate `driver.find_element` call: an element, a
`NoSuchElementException`, or some other driver fault. -/
inductive FRes where
  | found : Nat → FRes
  | noSuch : FRes
  | fault : FRes
  deriving DecidableEq, Repr

/-- Outcome of an action (click / context switch): success or a driver
fault. -/
inductive ARes where
  | ok : ARes
  | fault : ARes
  deriving DecidableEq, Repr

/-- The WebDriver oracle.  Each response function receives the trace of
operations performed so far, so responses may change over time. -/
structure Driver where
  window_handles : List Nat
  presenceResult : Trace → Sel → Nat → WRes
  clickableResult : Trace → Sel → Nat → WRes
  findResult : Trace → Sel → FRes
  clickResult : Trace → Nat → ARes
  switchFrameResult : Trace → Nat → ARes
  switchDefaultResult : Trace → ARes
  switchWindowResult : Trace → Nat → ARes

/-- `handle_extension_tabs`: if more than one window handle exists, switch to
the first handle and sleep 0.5 s; otherwise do nothing. -/
def handle_extension_tabs (d : Driver) (tr : Trace) : Except Unit Unit × Trace :=
  if 1 < d.window_handles.length then
    let h := d.window_handles.headD 0
    let tr1 := tr ++ [Event.switchWindow h]
    match d.switchWindowResult tr h with
    | ARes.fault => (Except.error (), tr1)
    | ARes.ok => (Except.ok (), tr1 ++ [Event.sleep 500])
  else
    (Except.ok (), tr)

/-- `find_recaptcha_checkbox_iframe`: bounded wait (instance timeout `tmo`)
for presence of the checkbox iframe; `TimeoutException` is caught and yields
`none`. -/
def find_recaptcha_checkbox_iframe (d : Driver) (tmo : Nat) (tr : Trace) :
    Except Unit (Option Nat) × Trace :=
  let tr1 := tr ++ [Event.waitPresence Sel.checkboxIframe tmo]
  match d.presenceResult tr Sel.checkboxIframe tmo with
  | WRes.found e => (Except.ok (some e), tr1)
  | WRes.timeout => (Except.ok none, tr1)
  | WRes.fault => (Except.error (), tr1)

/-- `click_recaptcha_checkbox`: wait for the checkbox to be clickable, then
click it; `TimeoutException` is caught and yields `false`. -/
def click_recaptcha_checkbox (d : Driver) (tmo : Nat) (tr : Trace) :
    Except Unit Bool × Trace :=
  let tr1 := tr ++ [Event.waitClickable Sel.checkbox tmo]
  match d.clickableResult tr Sel.checkbox tmo with
  | WRes.found e =>
      let tr2 := tr1 ++ [Event.click e]
      match d.clickResult tr1 e with
      | ARes.ok => (Except.ok true, tr2)
      | ARes.fault => (Except.error (), tr2)
  | WRes.timeout => (Except.ok false, tr1)
  | WRes.fault => (Except.error (), tr1)

/-- `is_recaptcha_solved`: one immediate `find_element` on the checked-state
selector; `NoSuchElementException` is caught and yields `false`. -/
def is_recaptcha_solved (d : Driver) (tr : Trace) : Except Unit Bool × Trace :=
  let tr1 := tr ++ [Event.findElement Sel.checkboxChecked]
  match d.findResult tr Sel.checkboxChecked with
  | FRes.found _ => (Except.ok true, tr1)
  | FRes.noSuch => (Except.ok false, tr1)
  | FRes.fault => (Except.error (), tr1)

/-- The selector loop of `find_challenge_iframe`: try each selector with a
bounded presence wait, returning the first hit; `TimeoutException` means
`continue`. -/
def find_challenge_iframe_loop (d : Driver) (tmo : Nat) :
    List Sel → Trace → Except Unit (Option Nat) × Trace
  | [], tr => (Except.ok none, tr)
  | s :: rest, tr =>
      let tr1 := tr ++ [Event.waitPresence s tmo]
      match d.presenceResult tr s tmo with
      | WRes.found e => (Except.ok (some e), tr1)
      | WRes.timeout => find_challenge_iframe_loop d tmo rest tr1
      | WRes.fault => (Except.error (), tr1)

/-- `find_challenge_iframe`: try `CHALLENGE_IFRAME_SELECTORS` in declared
order; `none` if all time out. -/
def find_challenge_iframe (d : Driver) (tmo : Nat) (tr : Trace) :
    Except Unit (Option Nat) × Trace :=
  find_challenge_iframe_loop d tmo CHALLENGE_IFRAME_SELECTORS tr

/-- The selector loop of `activate_buster_extension`: wait for each candidate
to be clickable; on the first hit sleep 5 s, then click and return `true`;
`TimeoutException` means `continue`. -/
def activate_buster_loop (d : Driver) (tmo : Nat) :
    List Sel → Trace → Except Unit Bool × Trace
  | [], tr => (Except.ok false, tr)
  | s :: rest, tr =>
      let tr1 := tr ++ [Event.waitClickable s tmo]
      match d.clickableResult tr s tmo with
      | WRes.found e =>
          let tr2 := tr1 ++ [Event.sleep 5000]
          let tr3 := tr2 ++ [Event.click e]
          match d.clickResult tr2 e with
          | ARes.ok => (Except.ok true, tr3)
          | ARes.fault => (Except.error (), tr3)
      | WRes.timeout => activate_buster_loop d tmo rest tr1
      | WRes.fault => (Except.error (), tr1)

/-- `activate_buster_extension`: try `BUSTER_BUTTON_SELECTORS` in declared
order; `false` if none becomes clickable. -/
def activate_buster_extension (d : Driver) (tmo : Nat) (tr : Trace) :
    Except Unit Bool × Trace :=
  activate_buster_loop d tmo BUSTER_BUTTON_SELECTORS tr

/-- `wait_for_solution`: a custom wait with budget `max_wait_time` for
presence of the checked-state selector; timeout yields `false`. -/
def wait_for_solution (d : Driver) (max_wait_time : Nat) (tr : Trace) :
    Except Unit Bool × Trace :=
  let tr1 := tr ++ [Event.waitPresence Sel.checkboxChecked max_wait_time]
  match d.presenceResult tr Sel.checkboxChecked max_wait_time with
  | WRes.found _ => (Except.ok true, tr1)
  | WRes.timeout => (Except.ok false, tr1)
  | WRes.fault => (Except.error (), tr1)

/-- The `try` block of `solve_recaptcha` (everything before `except`/
`finally`).  An uncaught driver fault is `Except.error ()`. -/
def solve_recaptcha_try (d : Driver) (tmo max_wait_time : Nat) (tr : Trace) :
    Except Unit Bool × Trace :=
  match handle_extension_tabs d tr with
  | (Except.error _, tr1) => (Except.error (), tr1)
  | (Except.ok _, tr1) =>
    match find_recaptcha_checkbox_iframe d tmo tr1 with
    | (Except.error _, tr2) => (Except.error (), tr2)
    | (Except.ok none, tr2) => (Except.ok false, tr2)
    | (Except.ok (some checkbox_iframe), tr2) =>
      let tr3 := tr2 ++ [Event.switchFrame checkbox_iframe]
      match d.switchFrameResult tr2 checkbox_iframe with
      | ARes.fault => (Except.error (), tr3)
      | ARes.ok =>
        match click_recaptcha_checkbox d tmo tr3 with
        | (Except.error _, tr4) => (Except.error (), tr4)
        | (Except.ok false, tr4) => (Except.ok false, tr4)
        | (Except.ok true, tr4) =>
          let tr5 := tr4 ++ [Event.sleep 2000]
          match is_recaptcha_solved d tr5 with
          | (Except.error _, tr6) => (Except.error (), tr6)
          | (Except.ok true, tr6) => (Except.ok true, tr6)
          | (Except.ok false, tr6) =>
            let tr7 := tr6 ++ [Event.switchDefault]
            match d.switchDefaultResult tr6 with
            | ARes.fault => (Except.error (), tr7)
            | ARes.ok =>
              match find_challenge_iframe d tmo tr7 with
              | (Except.error _, tr8) => (Except.error (), tr8)
              | (Except.ok none, tr8) => (Except.ok false, tr8)
              | (Except.ok (some challenge_iframe), tr8) =>
                let tr9 := tr8 ++ [Event.switchFrame challenge_iframe]
                match d.switchFrameResult tr8 challenge_iframe with
                | ARes.fault => (Except.error (), tr9)
                | ARes.ok =>
                  match activate_buster_extension d tmo tr9 with
                  | (Except.error _, tr10) => (Except.error (), tr10)
                  | (Except.ok false, tr10) => (Except.ok false, tr10)
                  | (Except.ok true, tr10) =>
                    let tr11 := tr10 ++ [Event.switchDefault]
                    match d.switchDefaultResult tr10 with
                    | ARes.fault => (Except.error (), tr11)
                    | ARes.ok =>
                      let tr12 := tr11 ++ [Event.switchFrame checkbox_iframe]
                      match d.switchFrameResult tr11 checkbox_iframe with
                      | ARes.fault => (Except.error (), tr12)
                      | ARes.ok => wait_for_solution d max_wait_time tr12

/-- `solve_recaptcha`: the `try` block, with `except Exception: return False`
and `finally: try: switch_to.default_content() except: pass`.  The `finally`
switch is always attempted (recorded in the trace) and its own fault is
swallowed. -/
def solve_recaptcha (d : Driver) (tmo max_wait_time : Nat) (tr : Trace) :
    Bool × Trace :=
  match solve_recaptcha_try d tmo max_wait_time tr with
  | (Except.ok b, tr1) => (b, tr1 ++ [Event.switchDefault])
  | (Except.error _, tr1) => (false, tr1 ++ [Event.switchDefault])

/-- The `while attempts < max_attempts` loop of `solve_all_recaptchas`,
starting from a given value of the `attempts` counter.  Returns the boolean
result together with the final value of `attempts` and the trace.
`max_attempts` and `attempts` are Python ints, modelled as `Int`. -/
def solve_all_from (d : Driver) (tmo max_wait_time : Nat) (max_attempts : Int)
    (attempts : Int) (tr : Trace) : Bool × Int × Trace :=
  if hlt : attempts < max_attempts then
    let attempts1 := attempts + 1
    match solve_recaptcha d tmo max_wait_time tr with
    | (true, tr1) => (true, attempts1, tr1)
    | (false, tr1) =>
        let tr2 := if attempts1 < max_attempts then tr1 ++ [Event.sleep 2000] else tr1
        solve_all_from d tmo max_wait_time max_attempts attempts1 tr2
  else
    (false, attempts, tr)
termination_by (max_attempts - attempts).toNat
decreasing_by
  omega

/-- `solve_all_recaptchas`: run `solve_recaptcha` up to `max_attempts` times,
short-circuiting on success, sleeping 2 s between consecutive attempts. -/
def solve_all_recaptchas (d : Driver) (tmo max_wait_time : Nat)
    (max_attempts : Int) (tr : Trace) : Bool × Int × Trace :=
  solve_all_from d tmo max_wait_time max_attempts 0 tr

/-! ### Event classification predicates -/

/-- Does the event query one of the challenge-iframe selectors (a
challenge-context lookup)? -/
def isChallengeLookup : Event → Bool
  | Event.waitPresence s _ => CHALLENGE_IFRAME_SELECTORS.contains s
  | _ => false

/-- Does the event query one of the Buster-button selectors (part of the
activation stage)? -/
def isBusterLookup : Event → Bool
  | Event.waitClickable s _ => BUSTER_BUTTON_SELECTORS.contains s
  | _ => false

/-- Any operation belonging to a stage after the checkbox-iframe search:
frame switches, clicks, clickability waits, immediate DOM queries, and any
presence wait other than the checkbox-iframe one (challenge lookup or
completion polling). -/
def laterStageEvent : Event → Bool
  | Event.switchFrame _ => true
  | Event.click _ => true
  | Event.waitClickable _ _ => true
  | Event.findElement _ => true
  | Event.waitPresence s _ => !(s == Sel.checkboxIframe)
  | _ => false

/-- Is the event a browsing-context switch (window, frame, or back to
top-level)? -/
def isContextSwitch : Event → Bool
  | Event.switchFrame _ => true
  | Event.switchDefault => true
  | Event.switchWindow _ => true
  | _ => false

/-! ### Trace-shape lemmas for the individual stages -/

theorem handle_extension_tabs_snd (d : Driver) (tr : Trace) :
    ∃ ext, (handle_extension_tabs d tr).2 = tr ++ ext ∧
      ∀ ev ∈ ext, ev = Event.switchWindow (d.window_handles.headD 0) ∨
        ev = Event.sleep 500 := by
  simp only [handle_extension_tabs]
  by_cases h : 1 < d.window_handles.length
  · simp only [if_pos h]
    cases d.switchWindowResult tr (d.window_handles.headD 0) with
    | ok =>
        exact ⟨[Event.switchWindow (d.window_handles.headD 0), Event.sleep 500],
          by simp, by simp⟩
    | fault =>
        exact ⟨[Event.switchWindow (d.window_handles.headD 0)], by simp, by simp⟩
  · simp only [if_neg h]
    exact ⟨[], by simp, by simp⟩

theorem find_recaptcha_checkbox_iframe_snd (d : Driver) (tmo : Nat) (tr : Trace) :
    (find_recaptcha_checkbox_iframe d tmo tr).2 =
      tr ++ [Event.waitPresence Sel.checkboxIframe tmo] := by
  unfold find_recaptcha_checkbox_iframe
  cases d.presenceResult tr Sel.checkboxIframe tmo <;> rfl

theorem click_recaptcha_checkbox_snd (d : Driver) (tmo : Nat) (tr : Trace) :
    ∃ ext, (click_recaptcha_checkbox d tmo tr).2 = tr ++ ext ∧
      ∀ ev ∈ ext, ev = Event.waitClickable Sel.checkbox tmo ∨
        ∃ e, ev = Event.click e := by
  rcases h1 : d.clickableResult tr Sel.checkbox tmo with e | _ | _
  · rcases h2 : d.clickResult (tr ++ [Event.waitClickable Sel.checkbox tmo]) e
      with _ | _
    · exact ⟨[Event.waitClickable Sel.checkbox tmo, Event.click e],
        by simp [click_recaptcha_checkbox, h1, h2], by simp⟩
    · exact ⟨[Event.waitClickable Sel.checkbox tmo, Event.click e],
        by simp [click_recaptcha_checkbox, h1, h2], by simp⟩
  · exact ⟨[Event.waitClickable Sel.checkbox tmo],
      by simp [click_recaptcha_checkbox, h1], by simp⟩
  · exact ⟨[Event.waitClickable Sel.checkbox tmo],
      by simp [click_recaptcha_checkbox, h1], by simp⟩

theorem is_recaptcha_solved_snd (d : Driver) (tr : Trace) :
    (is_recaptcha_solved d tr).2 = tr ++ [Event.findElement Sel.checkboxChecked] := by
  unfold is_recaptcha_solved
  cases d.findResult tr Sel.checkboxChecked <;> rfl

theorem wait_for_solution_snd (d : Driver) (max_wait_time : Nat) (tr : Trace) :
    (wait_for_solution d max_wait_time tr).2 =
      tr ++ [Event.waitPresence Sel.checkboxChecked max_wait_time] := by
  unfold wait_for_solution
  cases d.presenceResult tr Sel.checkboxChecked max_wait_time <;> rfl

/-! ### Selector-loop lemmas -/

theorem find_challenge_iframe_loop_all_timeout (d : Driver) (tmo : Nat)
    (l : List Sel) (tr : Trace)
    (h : ∀ t s, s ∈ l → d.presenceResult t s tmo = WRes.timeout) :
    find_challenge_iframe_loop d tmo l tr =
      (Except.ok none, tr ++ l.map (fun s => Event.waitPresence s tmo)) := by
  induction l generalizing tr with
  | nil => simp [find_challenge_iframe_loop]
  | cons s rest ih =>
      have hs := h tr s (List.mem_cons_self s rest)
      have ih1 := ih (tr ++ [Event.waitPresence s tmo])
        (fun t q hq => h t q (List.mem_cons_of_mem s hq))
      simp [find_challenge_iframe_loop, hs, ih1]

theorem find_challenge_iframe_loop_first_found (d : Driver) (tmo : Nat)
    (pre : List Sel) (s : Sel) (rest : List Sel) (e : Nat) (tr : Trace)
    (hpre : ∀ t p, p ∈ pre → d.presenceResult t p tmo = WRes.timeout)
    (hs : ∀ t, d.presenceResult t s tmo = WRes.found e) :
    find_challenge_iframe_loop d tmo (pre ++ s :: rest) tr =
      (Except.ok (some e),
       tr ++ (pre ++ [s]).map (fun q => Event.waitPresence q tmo)) := by
  induction pre generalizing tr with
  | nil => simp [find_challenge_iframe_loop, hs tr]
  | cons p ps ih =>
      have hp := hpre tr p (List.mem_cons_self p ps)
      have ih1 := ih (tr ++ [Event.waitPresence p tmo])
        (fun t q hq => hpre t q (List.mem_cons_of_mem p hq))
      simp [find_challenge_iframe_loop, hp, ih1]

theorem activate_buster_loop_all_timeout (d : Driver) (tmo : Nat)
    (l : List Sel) (tr : Trace)
    (h : ∀ t s, s ∈ l → d.clickableResult t s tmo = WRes.timeout) :
    activate_buster_loop d tmo l tr =
      (Except.ok false, tr ++ l.map (fun s => Event.waitClickable s tmo)) := by
  induction l generalizing tr with
  | nil => simp [activate_buster_loop]
  | cons s rest ih =>
      have hs := h tr s (List.mem_cons_self s rest)
      have ih1 := ih (tr ++ [Event.waitClickable s tmo])
        (fun t q hq => h t q (List.mem_cons_of_mem s hq))
      simp [activate_buster_loop, hs, ih1]

theorem activate_buster_loop_first_found (d : Driver) (tmo : Nat)
    (pre : List Sel) (s : Sel) (rest : List Sel) (e : Nat) (tr : Trace)
    (hpre : ∀ t p, p ∈ pre → d.clickableResult t p tmo = WRes.timeout)
    (hs : ∀ t, d.clickableResult t s tmo = WRes.found e)
    (hclick : ∀ t, d.clickResult t e = ARes.ok) :
    activate_buster_loop d tmo (pre ++ s :: rest) tr =
      (Except.ok true,
       (tr ++ pre.map (fun q => Event.waitClickable q tmo)) ++
         [Event.waitClickable s tmo, Event.sleep 5000, Event.click e]) := by
  induction pre generalizing tr with
  | nil =>
      have h2 := hclick (tr ++ [Event.waitClickable s tmo, Event.sleep 5000])
      simp [activate_buster_loop, hs tr, h2]
  | cons p ps ih =>
      have hp := hpre tr p (List.mem_cons_self p ps)
      have ih1 := ih (tr ++ [Event.waitClickable p tmo])
        (fun t q hq => hpre t q (List.mem_cons_of_mem p hq))
      simp [activate_buster_loop, hp, ih1]

/-! ### Concrete drivers used to witness the claims -/

/-- A driver on which every stage succeeds immediately. -/
def happyDriver : Driver where
  window_handles := [0]
  presenceResult := fun _ _ _ => WRes.found 1
  clickableResult := fun _ _ _ => WRes.found 2
  findResult := fun _ _ => FRes.found 3
  clickResult := fun _ _ => ARes.ok
  switchFrameResult := fun _ _ => ARes.ok
  switchDefaultResult := fun _ => ARes.ok
  switchWindowResult := fun _ _ => ARes.ok

/-- A driver on which every bounded wait times out and every immediate DOM
query misses. -/
def timeoutDriver : Driver where
  window_handles := [0]
  presenceResult := fun _ _ _ => WRes.timeout
  clickableResult := fun _ _ _ => WRes.timeout
  findResult := fun _ _ => FRes.noSuch
  clickResult := fun _ _ => ARes.ok
  switchFrameResult := fun _ _ => ARes.ok
  switchDefaultResult := fun _ => ARes.ok
  switchWindowResult := fun _ _ => ARes.ok

/-- A driver whose waits raise an unanticipated driver-level fault. -/
def faultDriver : Driver where
  window_handles := [0]
  presenceResult := fun _ _ _ => WRes.fault
  clickableResult := fun _ _ _ => WRes.fault
  findResult := fun _ _ => FRes.fault
  clickResult := fun _ _ => ARes.fault
  switchFrameResult := fun _ _ => ARes.fault
  switchDefaultResult := fun _ => ARes.fault
  switchWindowResult := fun _ _ => ARes.fault

/-- A driver with two open window handles. -/
def twoTabsDriver : Driver :=
  { happyDriver with window_handles := [4, 5] }

/-- A driver on which only the second challenge-iframe selector and only the
second Buster-button selector match. -/
def fallbackDriver : Driver where
  window_handles := [0]
  presenceResult := fun _ s _ =>
    match s with
    | Sel.challengeIframePlain => WRes.found 4
    | _ => WRes.timeout
  clickableResult := fun _ s _ =>
    match s with
    | Sel.busterHolderClass => WRes.found 5
    | _ => WRes.timeout
  findResult := fun _ _ => FRes.noSuch
  clickResult := fun _ _ => ARes.ok
  switchFrameResult := fun _ _ => ARes.ok
  switchDefaultResult := fun _ => ARes.ok
  switchWindowResult := fun _ _ => ARes.ok

/-- A driver on which the checkbox iframe is missing while the trace is
empty (so the first solve attempt fails) and present afterwards (so the
second attempt succeeds). -/
def secondTryDriver : Driver where
  window_handles := [0]
  presenceResult := fun t _ _ => if t.length = 0 then WRes.timeout else WRes.found 1
  clickableResult := fun _ _ _ => WRes.found 2
  findResult := fun _ _ => FRes.found 3
  clickResult := fun _ _ => ARes.ok
  switchFrameResult := fun _ _ => ARes.ok
  switchDefaultResult := fun _ => ARes.ok
  switchWindowResult := fun _ _ => ARes.ok

/-! ### The claims -/

/-- Claim C1: on every exit path of `solve_recaptcha` — success, any failure
return, or an unexpected fault raised mid-attempt — the switch back to the
top-level context is the last context operation (indeed the last driver
operation of any kind) in the trace, so the session's active browsing context
is top-level after the call returns. -/
theorem claim_C1 (d : Driver) (tmo max_wait_time : Nat) (tr : Trace) :
    ((solve_recaptcha d tmo max_wait_time tr).2).getLast? =
      some Event.switchDefault := by
  unfold solve_recaptcha
  rcases h : solve_recaptcha_try d tmo max_wait_time tr with ⟨r, tr1⟩
  cases r <;> simp [List.getLast?_append_cons]

/-- Claim C6: for every driver behaviour, `solve_recaptcha` surfaces an
uncaught mid-attempt fault as the boolean `false` and otherwise returns the
boolean computed by the attempt body, and `solve_all_recaptchas` always
returns a boolean — neither operation propagates an exception to the
caller. -/
theorem claim_C6 (d : Driver) (tmo mwt : Nat) (tr : Trace) :
    ((solve_recaptcha_try d tmo mwt tr).1 = Except.error () →
       (solve_recaptcha d tmo mwt tr).1 = false) ∧
    (∀ b tr1, solve_recaptcha_try d tmo mwt tr = (Except.ok b, tr1) →
       (solve_recaptcha d tmo mwt tr).1 = b) ∧
    (∀ max_attempts : Int,
       (solve_all_recaptchas d tmo mwt max_attempts tr).1 = true ∨
       (solve_all_recaptchas d tmo mwt max_attempts tr).1 = false) := by
  refine ⟨?_, ?_, ?_⟩
  · intro h
    unfold solve_recaptcha
    rcases h2 : solve_recaptcha_try d tmo mwt tr with ⟨r, tr1⟩
    rw [h2] at h
    simp only at h
    cases r with
    | ok b => exact absurd h (by simp)
    | error u => simp
  · intro b tr1 h
    unfold solve_recaptcha
    rw [h]
  · intro max_attempts
    cases h : (solve_all_recaptchas d tmo mwt max_attempts tr).1 with
    | true => exact Or.inl rfl
    | false => exact Or.inr rfl

/-- Witness for C6 on concrete drivers: a fault mid-attempt (all waits fault)
yields `false`, and a fault-free run propagates the body's boolean. -/
theorem claim_C6_witness :
    (solve_recaptcha faultDriver 20 30 []).1 = false ∧
    (solve_recaptcha happyDriver 20 30 []).1 = true := by
  constructor
  · exact (claim_C6 faultDriver 20 30 []).1 rfl
  · exact (claim_C6 happyDriver 20 30 []).2.1 true
      [Event.waitPresence Sel.checkboxIframe 20, Event.switchFrame 1,
       Event.waitClickable Sel.checkbox 20, Event.click 2, Event.sleep 2000,
       Event.findElement Sel.checkboxChecked] rfl

/-- Claim C7: `handle_extension_tabs` is a no-op when exactly one top-level
context exists; with more than one, it performs exactly one context switch,
to the first handle in the list. -/
theorem claim_C7 (d : Driver) (tr : Trace) :
    (d.window_handles.length = 1 → handle_extension_tabs d tr = (Except.ok (), tr)) ∧
    (1 < d.window_handles.length →
       ((handle_extension_tabs d tr).2.drop tr.length).filter isContextSwitch =
         [Event.switchWindow (d.window_handles.headD 0)]) := by
  constructor
  · intro h
    unfold handle_extension_tabs
    rw [if_neg (by omega)]
  · intro h
    simp only [handle_extension_tabs, if_pos h]
    cases d.switchWindowResult tr (d.window_handles.headD 0) with
    | ok => simp [List.append_assoc, List.drop_left, isContextSwitch]
    | fault => simp [List.drop_left, isContextSwitch]

/-- Witness for C7: a one-handle driver is untouched; a two-handle driver
performs exactly one switch, to the first handle. -/
theorem claim_C7_witness :
    handle_extension_tabs happyDriver [] = (Except.ok (), []) ∧
    ((handle_extension_tabs twoTabsDriver []).2.drop (0 : Nat)).filter
        isContextSwitch = [Event.switchWindow 4] := by
  constructor
  · exact (claim_C7 happyDriver []).1 (by decide)
  · exact (claim_C7 twoTabsDriver []).2 (by decide)

/-- Claim C9: for every `max_attempts ≤ 0`, `solve_all_recaptchas` returns
`false` with the attempts counter still `0` and the trace unchanged — the
retry loop body is never entered and no driver operation is issued. -/
theorem claim_C9 (d : Driver) (tmo mwt : Nat) (max_attempts : Int) (tr : Trace)
    (h : max_attempts ≤ 0) :
    solve_all_recaptchas d tmo mwt max_attempts tr = (false, 0, tr) := by
  unfold solve_all_recaptchas
  unfold solve_all_from
  rw [dif_neg (by omega)]

/-- Witness for C9 at `max_attempts = 0` and `max_attempts = -1`. -/
theorem claim_C9_witness :
    solve_all_recaptchas happyDriver 20 30 0 [] = (false, 0, []) ∧
    solve_all_recaptchas happyDriver 20 30 (-1) [] = (false, 0, []) := by
  exact ⟨claim_C9 happyDriver 20 30 0 [] (by decide),
    claim_C9 happyDriver 20 30 (-1) [] (by decide)⟩

/-- Claim C10: `is_recaptcha_solved` performs exactly one immediate DOM query
(no wait budget): it appends exactly the one `findElement` event and returns
`true`/`false` exactly as the checked-state selector is present/absent at the
instant of the call, whereas `wait_for_solution` issues a bounded-budget
presence wait for the same selector. -/
theorem claim_C10 (d : Driver) (tr : Trace) (max_wait_time : Nat) :
    ((is_recaptcha_solved d tr).2 = tr ++ [Event.findElement Sel.checkboxChecked]) ∧
    (∀ e, d.findResult tr Sel.checkboxChecked = FRes.found e →
       (is_recaptcha_solved d tr).1 = Except.ok true) ∧
    (d.findResult tr Sel.checkboxChecked = FRes.noSuch →
       (is_recaptcha_solved d tr).1 = Except.ok false) ∧
    ((wait_for_solution d max_wait_time tr).2 =
       tr ++ [Event.waitPresence Sel.checkboxChecked max_wait_time]) := by
  refine ⟨is_recaptcha_solved_snd d tr, ?_, ?_, wait_for_solution_snd d max_wait_time tr⟩
  · intro e h
    simp [is_recaptcha_solved, h]
  · intro h
    simp [is_recaptcha_solved, h]

/-- Witness for C10: the checked-state query answers `true` on a driver where
the selector matches and `false` on one where it is absent. -/
theorem claim_C10_witness :
    (is_recaptcha_solved happyDriver []).1 = Except.ok true ∧
    (is_recaptcha_solved timeoutDriver []).1 = Except.ok false := by
  constructor
  · exact (claim_C10 happyDriver [] 30).2.1 3 (by decide)
  · exact (claim_C10 timeoutDriver [] 30).2.2.1 (by decide)

/-- Claim C4: if no checkbox iframe is found within the wait budget (the
presence wait times out), `solve_recaptcha` returns `false` and the only
events of the whole call beyond the tab-handling preamble are the single
checkbox-iframe presence wait and the final restore switch: no frame switch,
no click, no challenge lookup, no activation, no completion polling. -/
theorem claim_C4 (d : Driver) (tmo mwt : Nat) (tr trA : Trace)
    (h0 : handle_extension_tabs d tr = (Except.ok (), trA))
    (h1 : d.presenceResult trA Sel.checkboxIframe tmo = WRes.timeout) :
    solve_recaptcha d tmo mwt tr =
      (false, trA ++ [Event.waitPresence Sel.checkboxIframe tmo, Event.switchDefault]) ∧
    ∃ ext, trA ++ [Event.waitPresence Sel.checkboxIframe tmo, Event.switchDefault] =
        tr ++ ext ∧ ∀ ev ∈ ext, laterStageEvent ev = false := by
  have hmain : solve_recaptcha d tmo mwt tr =
      (false, trA ++ [Event.waitPresence Sel.checkboxIframe tmo, Event.switchDefault]) := by
    simp [solve_recaptcha, solve_recaptcha_try, h0, find_recaptcha_checkbox_iframe, h1]
  refine ⟨hmain, ?_⟩
  obtain ⟨ext0, hext0, hev0⟩ := handle_extension_tabs_snd d tr
  have htrA : trA = tr ++ ext0 := by rw [← hext0, h0]
  refine ⟨ext0 ++ [Event.waitPresence Sel.checkboxIframe tmo, Event.switchDefault],
    by rw [htrA, List.append_assoc], ?_⟩
  intro ev hev
  rcases List.mem_append.1 hev with h | h
  · rcases hev0 ev h with h2 | h2 <;> subst h2 <;> rfl
  · simp only [List.mem_cons, List.mem_singleton] at h
    rcases h with h2 | h2 | h2
    · subst h2; rfl
    · subst h2; rfl
    · simp at h2

/-- Witness for C4 on a driver whose checkbox-iframe wait times out. -/
theorem claim_C4_witness :
    solve_recaptcha timeoutDriver 20 30 [] =
      (false, [Event.waitPresence Sel.checkboxIframe 20, Event.switchDefault]) ∧
    ∃ ext, ([] : Trace) ++ [Event.waitPresence Sel.checkboxIframe 20, Event.switchDefault] =
        ([] : Trace) ++ ext ∧ ∀ ev ∈ ext, laterStageEvent ev = false := by
  have h := claim_C4 timeoutDriver 20 30 [] [] rfl rfl
  exact ⟨h.1, h.2⟩

/-- Claim C2: when the checkbox iframe is found, the frame switch and checkbox
click succeed, and after the fixed settle delay the checked-state selector is
already present (`is_recaptcha_solved` answers `true`), `solve_recaptcha`
returns `true` and the whole call performs no challenge-iframe lookup and no
Buster activation. -/
theorem claim_C2 (d : Driver) (tmo mwt : Nat) (tr trA trB trC trD : Trace) (cb : Nat)
    (h0 : handle_extension_tabs d tr = (Except.ok (), trA))
    (h1 : find_recaptcha_checkbox_iframe d tmo trA = (Except.ok (some cb), trB))
    (h2 : d.switchFrameResult trB cb = ARes.ok)
    (h3 : click_recaptcha_checkbox d tmo (trB ++ [Event.switchFrame cb]) =
      (Except.ok true, trC))
    (h4 : is_recaptcha_solved d (trC ++ [Event.sleep 2000]) = (Except.ok true, trD)) :
    solve_recaptcha d tmo mwt tr = (true, trD ++ [Event.switchDefault]) ∧
    ∃ ext, trD ++ [Event.switchDefault] = tr ++ ext ∧
      ∀ ev ∈ ext, isChallengeLookup ev = false ∧ isBusterLookup ev = false := by
  have hmain : solve_recaptcha d tmo mwt tr = (true, trD ++ [Event.switchDefault]) := by
    simp [solve_recaptcha, solve_recaptcha_try, h0, h1, h2, h3, h4]
  refine ⟨hmain, ?_⟩
  obtain ⟨ext0, hext0, hev0⟩ := handle_extension_tabs_snd d tr
  have htrA : trA = tr ++ ext0 := by rw [← hext0, h0]
  have htrB : trB = trA ++ [Event.waitPresence Sel.checkboxIframe tmo] := by
    have hsnd := find_recaptcha_checkbox_iframe_snd d tmo trA
    rw [h1] at hsnd
    simpa using hsnd
  obtain ⟨extC, hextC, hevC⟩ :=
    click_recaptcha_checkbox_snd d tmo (trB ++ [Event.switchFrame cb])
  have htrC : trC = (trB ++ [Event.switchFrame cb]) ++ extC := by
    rw [← hextC, h3]
  have htrD : trD = (trC ++ [Event.sleep 2000]) ++ [Event.findElement Sel.checkboxChecked] := by
    have hsnd := is_recaptcha_solved_snd d (trC ++ [Event.sleep 2000])
    rw [h4] at hsnd
    simpa using hsnd
  refine ⟨ext0 ++ [Event.waitPresence Sel.checkboxIframe tmo] ++ [Event.switchFrame cb]
      ++ extC ++ [Event.sleep 2000] ++ [Event.findElement Sel.checkboxChecked]
      ++ [Event.switchDefault], ?_, ?_⟩
  · rw [htrD, htrC, htrB, htrA]
    simp [List.append_assoc]
  · intro ev hev
    simp only [List.mem_append, List.mem_singleton] at hev
    rcases hev with ((((((h | h) | h) | h) | h) | h) | h)
    · rcases hev0 ev h with h2 | h2 <;> subst h2 <;> exact ⟨rfl, rfl⟩
    · subst h; exact ⟨rfl, rfl⟩
    · subst h; exact ⟨rfl, rfl⟩
    · rcases hevC ev h with h2 | ⟨e, h2⟩ <;> subst h2 <;> exact ⟨rfl, rfl⟩
    · subst h; exact ⟨rfl, rfl⟩
    · subst h; exact ⟨rfl, rfl⟩
    · subst h; exact ⟨rfl, rfl⟩

/-- Witness for C2 on a driver where everything succeeds and the checkbox is
verified right after the settle delay. -/
theorem claim_C2_witness :
    solve_recaptcha happyDriver 20 30 [] =
      (true, [Event.waitPresence Sel.checkboxIframe 20, Event.switchFrame 1,
        Event.waitClickable Sel.checkbox 20, Event.click 2, Event.sleep 2000,
        Event.findElement Sel.checkboxChecked] ++ [Event.switchDefault]) ∧
    ∃ ext, [Event.waitPresence Sel.checkboxIframe 20, Event.switchFrame 1,
        Event.waitClickable Sel.checkbox 20, Event.click 2, Event.sleep 2000,
        Event.findElement Sel.checkboxChecked] ++ [Event.switchDefault] = ([] : Trace) ++ ext ∧
      ∀ ev ∈ ext, isChallengeLookup ev = false ∧ isBusterLookup ev = false := by
  exact claim_C2 happyDriver 20 30 [] []
    [Event.waitPresence Sel.checkboxIframe 20]
    [Event.waitPresence Sel.checkboxIframe 20, Event.switchFrame 1,
     Event.waitClickable Sel.checkbox 20, Event.click 2]
    [Event.waitPresence Sel.checkboxIframe 20, Event.switchFrame 1,
     Event.waitClickable Sel.checkbox 20, Event.click 2, Event.sleep 2000,
     Event.findElement Sel.checkboxChecked]
    1 rfl rfl rfl rfl rfl

/-- Claim C5: both locate operations try their candidate selectors in
declared order, each under its own bounded wait, return on the first matching
candidate, and yield NotFound (`none` / `false`, not an exception) when every
candidate times out.  Driver responses to the waits are assumed
time-independent (`ρp`/`ρc`) so that "a candidate matches" is well defined. -/
theorem claim_C5 (d : Driver) (tmo : Nat) (tr : Trace) (ρp ρc : Sel → WRes)
    (hp : ∀ t s, d.presenceResult t s tmo = ρp s)
    (hc : ∀ t s, d.clickableResult t s tmo = ρc s) :
    ((∀ s ∈ CHALLENGE_IFRAME_SELECTORS, ρp s = WRes.timeout) →
       find_challenge_iframe d tmo tr =
         (Except.ok none,
          tr ++ CHALLENGE_IFRAME_SELECTORS.map (fun s => Event.waitPresence s tmo))) ∧
    (∀ pre s rest e, CHALLENGE_IFRAME_SELECTORS = pre ++ s :: rest →
       (∀ p ∈ pre, ρp p = WRes.timeout) → ρp s = WRes.found e →
       find_challenge_iframe d tmo tr =
         (Except.ok (some e),
          tr ++ (pre ++ [s]).map (fun q => Event.waitPresence q tmo))) ∧
    ((∀ s ∈ BUSTER_BUTTON_SELECTORS, ρc s = WRes.timeout) →
       activate_buster_extension d tmo tr =
         (Except.ok false,
          tr ++ BUSTER_BUTTON_SELECTORS.map (fun s => Event.waitClickable s tmo))) ∧
    (∀ pre s rest e, BUSTER_BUTTON_SELECTORS = pre ++ s :: rest →
       (∀ p ∈ pre, ρc p = WRes.timeout) → ρc s = WRes.found e →
       (∀ t, d.clickResult t e = ARes.ok) →
       activate_buster_extension d tmo tr =
         (Except.ok true,
          (tr ++ pre.map (fun q => Event.waitClickable q tmo)) ++
            [Event.waitClickable s tmo, Event.sleep 5000, Event.click e])) := by
  refine ⟨?_, ?_, ?_, ?_⟩
  · intro hmiss
    exact find_challenge_iframe_loop_all_timeout d tmo CHALLENGE_IFRAME_SELECTORS tr
      (fun t s hs => (hp t s).trans (hmiss s hs))
  · intro pre s rest e hlist hpre hfound
    unfold find_challenge_iframe
    rw [hlist]
    exact find_challenge_iframe_loop_first_found d tmo pre s rest e tr
      (fun t p hp2 => (hp t p).trans (hpre p hp2))
      (fun t => (hp t s).trans hfound)
  · intro hmiss
    exact activate_buster_loop_all_timeout d tmo BUSTER_BUTTON_SELECTORS tr
      (fun t s hs => (hc t s).trans (hmiss s hs))
  · intro pre s rest e hlist hpre hfound hclick
    unfold activate_buster_extension
    rw [hlist]
    exact activate_buster_loop_first_found d tmo pre s rest e tr
      (fun t p hp2 => (hc t p).trans (hpre p hp2))
      (fun t => (hc t s).trans hfound) hclick

/-- Witness for C5: all candidates missing gives NotFound after trying every
selector in order; with only the second candidate matching, the first is
tried, misses, and the second is returned. -/
theorem claim_C5_witness :
    (find_challenge_iframe timeoutDriver 20 [] =
       (Except.ok none,
        ([] : Trace) ++ CHALLENGE_IFRAME_SELECTORS.map (fun s => Event.waitPresence s 20))) ∧
    (find_challenge_iframe fallbackDriver 20 [] =
       (Except.ok (some 4),
        ([] : Trace) ++ ([Sel.challengeIframeTwoMinutes] ++ [Sel.challengeIframePlain]).map
          (fun q => Event.waitPresence q 20))) ∧
    (activate_buster_extension timeoutDriver 20 [] =
       (Except.ok false,
        ([] : Trace) ++ BUSTER_BUTTON_SELECTORS.map (fun s => Event.waitClickable s 20))) ∧
    (activate_buster_extension fallbackDriver 20 [] =
       (Except.ok true,
        (([] : Trace) ++ [Sel.busterHolderDiv].map (fun q => Event.waitClickable q 20)) ++
          [Event.waitClickable Sel.busterHolderClass 20, Event.sleep 5000, Event.click 5])) := by
  refine ⟨?_, ?_, ?_, ?_⟩
  · exact (claim_C5 timeoutDriver 20 [] (fun _ => WRes.timeout) (fun _ => WRes.timeout)
      (fun _ _ => rfl) (fun _ _ => rfl)).1 (by decide)
  · exact (claim_C5 fallbackDriver 20 []
      (fun s => match s with | Sel.challengeIframePlain => WRes.found 4 | _ => WRes.timeout)
      (fun s => match s with | Sel.busterHolderClass => WRes.found 5 | _ => WRes.timeout)
      (fun _ _ => rfl) (fun _ _ => rfl)).2.1
      [Sel.challengeIframeTwoMinutes] Sel.challengeIframePlain [Sel.challengeIframeBframe] 4
      rfl (by decide) rfl
  · exact (claim_C5 timeoutDriver 20 [] (fun _ => WRes.timeout) (fun _ => WRes.timeout)
      (fun _ _ => rfl) (fun _ _ => rfl)).2.2.1 (by decide)
  · exact (claim_C5 fallbackDriver 20 []
      (fun s => match s with | Sel.challengeIframePlain => WRes.found 4 | _ => WRes.timeout)
      (fun s => match s with | Sel.busterHolderClass => WRes.found 5 | _ => WRes.timeout)
      (fun _ _ => rfl) (fun _ _ => rfl)).2.2.2
      [Sel.busterHolderDiv] Sel.busterHolderClass [Sel.busterHelpButton] 5
      rfl (by decide) rfl (fun _ => rfl)

/-- Claim C8: `activate_buster_extension` waits the fixed 5-second
pre-activation delay strictly after the first candidate becomes clickable and
strictly before dispatching the click, then returns `true`; it returns
`false` when no candidate becomes clickable within budget. -/
theorem claim_C8 (d : Driver) (tmo : Nat) (tr : Trace) (ρc : Sel → WRes)
    (hc : ∀ t s, d.clickableResult t s tmo = ρc s) :
    (∀ pre s rest e, BUSTER_BUTTON_SELECTORS = pre ++ s :: rest →
       (∀ p ∈ pre, ρc p = WRes.timeout) → ρc s = WRes.found e →
       (∀ t, d.clickResult t e = ARes.ok) →
       activate_buster_extension d tmo tr =
         (Except.ok true,
          (tr ++ pre.map (fun q => Event.waitClickable q tmo)) ++
            [Event.waitClickable s tmo, Event.sleep 5000, Event.click e])) ∧
    ((∀ s ∈ BUSTER_BUTTON_SELECTORS, ρc s = WRes.timeout) →
       activate_buster_extension d tmo tr =
         (Except.ok false,
          tr ++ BUSTER_BUTTON_SELECTORS.map (fun s => Event.waitClickable s tmo))) := by
  constructor
  · intro pre s rest e hlist hpre hfound hclick
    unfold activate_buster_extension
    rw [hlist]
    exact activate_buster_loop_first_found d tmo pre s rest e tr
      (fun t p hp2 => (hc t p).trans (hpre p hp2))
      (fun t => (hc t s).trans hfound) hclick
  · intro hmiss
    exact activate_buster_loop_all_timeout d tmo BUSTER_BUTTON_SELECTORS tr
      (fun t s hs => (hc t s).trans (hmiss s hs))

/-- Witness for C8: on the fallback driver the click comes right after the
5-second sleep, which comes right after the clickability wait; on the
all-timeout driver the result is `false` with no exception. -/
theorem claim_C8_witness :
    (activate_buster_extension fallbackDriver 20 [] =
       (Except.ok true,
        (([] : Trace) ++ [Sel.busterHolderDiv].map (fun q => Event.waitClickable q 20)) ++
          [Event.waitClickable Sel.busterHolderClass 20, Event.sleep 5000, Event.click 5])) ∧
    (activate_buster_extension timeoutDriver 20 [] =
       (Except.ok false,
        ([] : Trace) ++ BUSTER_BUTTON_SELECTORS.map (fun s => Event.waitClickable s 20))) := by
  constructor
  · exact (claim_C8 fallbackDriver 20 []
      (fun s => match s with | Sel.busterHolderClass => WRes.found 5 | _ => WRes.timeout)
      (fun _ _ => rfl)).1
      [Sel.busterHolderDiv] Sel.busterHolderClass [Sel.busterHelpButton] 5
      rfl (by decide) rfl (fun _ => rfl)
  · exact (claim_C8 timeoutDriver 20 [] (fun _ => WRes.timeout)
      (fun _ _ => rfl)).2 (by decide)

/-! ### The retry loop of `solve_all_recaptchas` -/

/-- The trace at entry of attempt `i+1` of `solve_all_recaptchas`, assuming
the first `i` attempts all returned `false`: each failed attempt appends its
own events, followed by the fixed 2-second inter-attempt sleep whenever
another attempt is still to come. -/
def attemptEntryTrace (d : Driver) (tmo max_wait_time : Nat) (max_attempts : Int)
    (tr : Trace) : Nat → Trace
  | 0 => tr
  | i + 1 =>
      let t1 := (solve_recaptcha d tmo max_wait_time
        (attemptEntryTrace d tmo max_wait_time max_attempts tr i)).2
      if ((i : Int) + 1) < max_attempts then t1 ++ [Event.sleep 2000] else t1

theorem solve_all_first_success (d : Driver) (tmo mwt : Nat)
    (max_attempts : Int) (tr : Trace) (k : Nat) (hk1 : 1 ≤ k)
    (hkm : (k : Int) ≤ max_attempts)
    (hfail : ∀ i : Nat, i + 1 < k →
      (solve_recaptcha d tmo mwt (attemptEntryTrace d tmo mwt max_attempts tr i)).1 = false)
    (hsucc : (solve_recaptcha d tmo mwt
      (attemptEntryTrace d tmo mwt max_attempts tr (k - 1))).1 = true) :
    solve_all_recaptchas d tmo mwt max_attempts tr =
      (true, (k : Int),
       (solve_recaptcha d tmo mwt (attemptEntryTrace d tmo mwt max_attempts tr (k - 1))).2) := by
  have aux : ∀ m i : Nat, i + m + 1 = k →
      solve_all_from d tmo mwt max_attempts (i : Int)
        (attemptEntryTrace d tmo mwt max_attempts tr i) =
        (true, (k : Int),
         (solve_recaptcha d tmo mwt (attemptEntryTrace d tmo mwt max_attempts tr (k - 1))).2) := by
    intro m
    induction m with
    | zero =>
        intro i hi
        have hik : i = k - 1 := by omega
        subst hik
        have hcond : ((k - 1 : Nat) : Int) < max_attempts := by omega
        rcases hres : solve_recaptcha d tmo mwt
            (attemptEntryTrace d tmo mwt max_attempts tr (k - 1)) with ⟨b, trx⟩
        have hb : b = true := by rw [hres] at hsucc; exact hsucc
        subst hb
        unfold solve_all_from
        rw [dif_pos hcond]
        simp only [hres]
        refine Prod.ext rfl (Prod.ext ?_ ?_) <;> simp
        omega
    | succ m ih =>
        intro i hi
        have hcond : (i : Int) < max_attempts := by omega
        rcases hres : solve_recaptcha d tmo mwt
            (attemptEntryTrace d tmo mwt max_attempts tr i) with ⟨b, trx⟩
        have hb : b = false := by
          have := hfail i (by omega)
          rw [hres] at this; exact this
        subst hb
        have hnext := ih (i + 1) (by omega)
        have hentry : attemptEntryTrace d tmo mwt max_attempts tr (i + 1) =
            if ((i : Int) + 1) < max_attempts then trx ++ [Event.sleep 2000] else trx := by
          simp only [attemptEntryTrace, hres]
        unfold solve_all_from
        rw [dif_pos hcond]
        simp only [hres]
        rw [hentry] at hnext
        rw [show ((i : Nat) + 1 : Int) = ((i : Int) + 1) by ring] at hnext
        exact hnext
  have h0 := aux (k - 1) 0 (by omega)
  simpa [solve_all_recaptchas, attemptEntryTrace] using h0

theorem solve_all_all_fail (d : Driver) (tmo mwt : Nat)
    (max_attempts : Int) (tr : Trace) (hm : 1 ≤ max_attempts)
    (hfail : ∀ i : Nat, i < max_attempts.toNat →
      (solve_recaptcha d tmo mwt (attemptEntryTrace d tmo mwt max_attempts tr i)).1 = false) :
    solve_all_recaptchas d tmo mwt max_attempts tr =
      (false, max_attempts,
       (solve_recaptcha d tmo mwt
         (attemptEntryTrace d tmo mwt max_attempts tr (max_attempts.toNat - 1))).2) := by
  have aux : ∀ m i : Nat, i + m + 1 = max_attempts.toNat →
      solve_all_from d tmo mwt max_attempts (i : Int)
        (attemptEntryTrace d tmo mwt max_attempts tr i) =
        (false, max_attempts,
         (solve_recaptcha d tmo mwt
           (attemptEntryTrace d tmo mwt max_attempts tr (max_attempts.toNat - 1))).2) := by
    intro m
    induction m with
    | zero =>
        intro i hi
        have hik : i = max_attempts.toNat - 1 := by omega
        subst hik
        have hcond : ((max_attempts.toNat - 1 : Nat) : Int) < max_attempts := by omega
        rcases hres : solve_recaptcha d tmo mwt
            (attemptEntryTrace d tmo mwt max_attempts tr (max_attempts.toNat - 1)) with ⟨b, trx⟩
        have hb : b = false := by
          have := hfail (max_attempts.toNat - 1) (by omega)
          rw [hres] at this; exact this
        subst hb
        unfold solve_all_from
        rw [dif_pos hcond]
        simp only [hres]
        have hstop : ¬ (((max_attempts.toNat - 1 : Nat) : Int) + 1 < max_attempts) := by omega
        rw [if_neg hstop]
        unfold solve_all_from
        rw [dif_neg (by omega)]
        refine Prod.ext rfl (Prod.ext ?_ ?_) <;> simp
        omega
    | succ m ih =>
        intro i hi
        have hcond : (i : Int) < max_attempts := by omega
        rcases hres : solve_recaptcha d tmo mwt
            (attemptEntryTrace d tmo mwt max_attempts tr i) with ⟨b, trx⟩
        have hb : b = false := by
          have := hfail i (by omega)
          rw [hres] at this; exact this
        subst hb
        have hnext := ih (i + 1) (by omega)
        have hentry : attemptEntryTrace d tmo mwt max_attempts tr (i + 1) =
            if ((i : Int) + 1) < max_attempts then trx ++ [Event.sleep 2000] else trx := by
          simp only [attemptEntryTrace, hres]
        unfold solve_all_from
        rw [dif_pos hcond]
        simp only [hres]
        rw [hentry] at hnext
        rw [show ((i : Nat) + 1 : Int) = ((i : Int) + 1) by ring] at hnext
        exact hnext
  have h0 := aux (max_attempts.toNat - 1) 0 (by omega)
  simpa [solve_all_recaptchas, attemptEntryTrace] using h0

/-- Claim C3: for `max_attempts ≥ 1`, `solve_all_recaptchas` short-circuits
on the first successful attempt — if attempt `k` (1 ≤ k ≤ max_attempts) is
the first success the loop stops with `true` after exactly `k` attempts — and
if every attempt fails it stops with `false` after exactly `max_attempts`
attempts, never more, with the fixed 2-second delay between consecutive
attempts (encoded in `attemptEntryTrace`). -/
theorem claim_C3 (d : Driver) (tmo mwt : Nat) (max_attempts : Int) (tr : Trace) :
    (∀ k : Nat, 1 ≤ k → (k : Int) ≤ max_attempts →
       (∀ i : Nat, i + 1 < k →
         (solve_recaptcha d tmo mwt (attemptEntryTrace d tmo mwt max_attempts tr i)).1 = false) →
       (solve_recaptcha d tmo mwt
         (attemptEntryTrace d tmo mwt max_attempts tr (k - 1))).1 = true →
       solve_all_recaptchas d tmo mwt max_attempts tr =
         (true, (k : Int),
          (solve_recaptcha d tmo mwt
            (attemptEntryTrace d tmo mwt max_attempts tr (k - 1))).2)) ∧
    (1 ≤ max_attempts →
       (∀ i : Nat, i < max_attempts.toNat →
         (solve_recaptcha d tmo mwt (attemptEntryTrace d tmo mwt max_attempts tr i)).1 = false) →
       solve_all_recaptchas d tmo mwt max_attempts tr =
         (false, max_attempts,
          (solve_recaptcha d tmo mwt
            (attemptEntryTrace d tmo mwt max_attempts tr (max_attempts.toNat - 1))).2)) := by
  exact ⟨fun k hk1 hkm hfail hsucc =>
      solve_all_first_success d tmo mwt max_attempts tr k hk1 hkm hfail hsucc,
    fun hm hfail => solve_all_all_fail d tmo mwt max_attempts tr hm hfail⟩

/-- Witness for C3: on a driver that fails attempt 1 and succeeds attempt 2
with `max_attempts = 3`, the loop stops with `true` after exactly 2 attempts;
on an always-failing driver with `max_attempts = 2`, it stops with `false`
after exactly 2 attempts. -/
theorem claim_C3_witness :
    solve_all_recaptchas secondTryDriver 20 30 3 [] =
      (true, ((2 : Nat) : Int),
       (solve_recaptcha secondTryDriver 20 30
         (attemptEntryTrace secondTryDriver 20 30 3 [] 1)).2) ∧
    solve_all_recaptchas timeoutDriver 20 30 2 [] =
      (false, (2 : Int),
       (solve_recaptcha timeoutDriver 20 30
         (attemptEntryTrace timeoutDriver 20 30 2 [] ((2 : Int).toNat - 1))).2) := by
  constructor
  · exact (claim_C3 secondTryDriver 20 30 3 []).1 2 (by decide) (by decide)
      (fun i hi => by
        have h0 : i = 0 := by omega
        subst h0
        decide)
      (by decide)
  · exact (claim_C3 timeoutDriver 20 30 2 []).2 (by decide)
      (fun i hi => by
        have h01 : i = 0 ∨ i = 1 := by omega
        rcases h01 with h0 | h1
        · subst h0; decide
        · subst h1; decide)
